import Mathlib

/-!
# NexaSales — verification of the EVC / priority-scoring core

Shallow embedding, in Lean 4, of the pure calculation core of the NexaSales
customer-segmentation pipeline:

* `src/nexasales_agents/priority_evaluation.py` — `calculate_priority_scores`
  (batch normalization, weighted composite score, rank thresholds);
* `src/nexasales_agents/formula_design.py` — `customize_formula_for_segment`
  and `extract_parameter_from_characteristics`;
* `src/tools/evc_tools.py` — `calculate_evc` (the EVC identity and the
  implementation-cost formula);
* `src/nexasales_agents/market_potential.py` — `calculate_segment_potential`.

Python floats are modelled as exact rationals (`ℚ`); the properties under
study are arithmetic identities and threshold comparisons that the source
states with exact comparisons.  Python dictionaries are modelled as
association lists with `dict.get`-style lookup, and fallible paths return
`Option`/`Except` values.  A second, dynamically-typed model (`PVal`) of
`calculate_priority_scores` captures the duck-typed behaviour (AttributeError
on non-dict elements, truthiness of empty containers) that the statically
shaped model cannot express.
-/

namespace NexaSales

/-- `d.get(k, default)` on a Python dict modelled as an association list. -/
def dictGetD (d : List (String × α)) (k : String) (default : α) : α :=
  (d.lookup k).getD default

/-! ## Priority scorer (`priority_evaluation.py`, `calculate_priority_scores`)

The source function first parses its argument into
`processed_integrated_results` (lines 147–194); every branch of that parse is
wrapped in `try/except` and never raises, and the parsed value is never used
afterwards: the batch maxima (lines 204–206) and the scoring loop (line 211)
iterate over the raw `integrated_results` argument.  The structured model
below embeds the scoring computation on the shape the loop actually needs
(a list of dictionaries with numeric fields); the dynamic model `PVal` later
in this file embeds the same lines for arbitrary argument shapes. -/

/-- One element of the `integrated_results` list (a dictionary produced by
`integrate_evc_and_market_potential`): the scoring loop reads `segment_id`,
`segment_name`, `evc_value`, `market_size`, `acquisition_probability`,
`total_potential_value` and the nested dict `market_analysis`
(for `market_growth_rate`). -/
structure IntegratedResult where
  segment_id : String
  segment_name : String
  evc_value : ℚ
  market_size : ℚ
  acquisition_probability : ℚ
  total_potential_value : ℚ
  market_analysis : List (String × ℚ)
  deriving DecidableEq, Repr

/-- The weight dictionary of `calculate_priority_scores` (lines 196–201). -/
structure PriorityWeights where
  evc_value : ℚ
  market_size : ℚ
  acquisition_probability : ℚ
  growth_potential : ℚ
  deriving DecidableEq, Repr

/-- `weights = {"evc_value": 0.4, "market_size": 0.2,
"acquisition_probability": 0.3, "growth_potential": 0.1}`. -/
def priority_weights : PriorityWeights :=
  { evc_value := 0.4, market_size := 0.2
    acquisition_probability := 0.3, growth_potential := 0.1 }

/-- `max([f(r) for r in rs]) if rs else 1` — the batch maximum of one metric
(lines 204–206), `1` for an empty batch. -/
def batch_max (f : IntegratedResult → ℚ) (rs : List IntegratedResult) : ℚ :=
  match rs.map f with
  | [] => 1
  | x :: xs => xs.foldl max x

/-- `max_evc` (line 204). -/
def max_evc (rs : List IntegratedResult) : ℚ :=
  batch_max (·.evc_value) rs

/-- `max_market_size` (line 205). -/
def max_market_size (rs : List IntegratedResult) : ℚ :=
  batch_max (·.market_size) rs

/-- `max_potential` (line 206; computed by the source but never used). -/
def max_potential (rs : List IntegratedResult) : ℚ :=
  batch_max (·.total_potential_value) rs

/-- The priority-rank decision chain (lines 234–243): thresholds closed on
the lower bound, tested in descending order, first match wins. -/
def priority_rank (priority_score : ℚ) : String :=
  if priority_score ≥ 0.8 then "最優先"
  else if priority_score ≥ 0.6 then "高優先"
  else if priority_score ≥ 0.4 then "中優先"
  else if priority_score ≥ 0.2 then "低優先"
  else "最低優先"

/-- One entry of the `score_components` dictionary (lines 251–276). -/
structure ScoreComponentEntry where
  raw_value : ℚ
  normalized_value : ℚ
  weight : ℚ
  contribution : ℚ
  deriving DecidableEq, Repr

/-- The `score_components` dictionary of one priority-score record. -/
structure ScoreComponents where
  evc_value : ScoreComponentEntry
  market_size : ScoreComponentEntry
  acquisition_probability : ScoreComponentEntry
  growth_potential : ScoreComponentEntry
  deriving DecidableEq, Repr

/-- One element of the returned `priority_scores` list (lines 246–277). -/
structure PriorityScoreInfo where
  segment_id : String
  segment_name : String
  priority_score : ℚ
  priority_rank : String
  score_components : ScoreComponents
  deriving DecidableEq, Repr

/-- The body of the scoring loop (lines 211–277) for one segment, given the
batch maxima: normalization (with the `> 0` guards of lines 216–217), growth
saturation `min(growth_rate / 0.1, 1)` (line 223), the weighted sum
(lines 226–231), the rank (lines 234–243) and the component breakdown. -/
def score_info (maxE maxM : ℚ) (result : IntegratedResult) : PriorityScoreInfo :=
  let normalized_evc : ℚ := if maxE > 0 then result.evc_value / maxE else 0
  let normalized_market_size : ℚ := if maxM > 0 then result.market_size / maxM else 0
  let normalized_acquisition : ℚ := result.acquisition_probability
  let growth_rate : ℚ := dictGetD result.market_analysis "market_growth_rate" 0
  let normalized_growth : ℚ := min (growth_rate / 0.1) 1
  let priority_score : ℚ :=
    priority_weights.evc_value * normalized_evc +
    priority_weights.market_size * normalized_market_size +
    priority_weights.acquisition_probability * normalized_acquisition +
    priority_weights.growth_potential * normalized_growth
  { segment_id := result.segment_id
    segment_name := result.segment_name
    priority_score := priority_score
    priority_rank := priority_rank priority_score
    score_components :=
      { evc_value :=
          { raw_value := result.evc_value, normalized_value := normalized_evc
            weight := priority_weights.evc_value
            contribution := priority_weights.evc_value * normalized_evc }
        market_size :=
          { raw_value := result.market_size, normalized_value := normalized_market_size
            weight := priority_weights.market_size
            contribution := priority_weights.market_size * normalized_market_size }
        acquisition_probability :=
          { raw_value := result.acquisition_probability
            normalized_value := normalized_acquisition
            weight := priority_weights.acquisition_probability
            contribution := priority_weights.acquisition_probability * normalized_acquisition }
        growth_potential :=
          { raw_value := growth_rate, normalized_value := normalized_growth
            weight := priority_weights.growth_potential
            contribution := priority_weights.growth_potential * normalized_growth } } }

/-- Stable insertion of `x` into `l`: `x` goes in front of the first `y`
with `le x y`. -/
def insertSorted (le : α → α → Bool) (x : α) : List α → List α
  | [] => [x]
  | y :: ys => if le x y then x :: y :: ys else y :: insertSorted le x ys

/-- Stable sort with respect to `le` (used to model Python's stable
`list.sort`): elements are inserted from the right, so an element placed
earlier in the original list precedes later ties. -/
def sortStable (le : α → α → Bool) (l : List α) : List α :=
  l.foldr (insertSorted le) []

/-- `priority_scores.sort(key=lambda x: x["priority_score"], reverse=True)`
(line 282): stable descending sort by score. -/
def sortByScoreDesc (l : List PriorityScoreInfo) : List PriorityScoreInfo :=
  sortStable (fun a b => decide (b.priority_score ≤ a.priority_score)) l

/-- `calculate_priority_scores` (lines 195–287) on a list of dictionaries
with numeric fields: batch maxima, per-segment scoring, descending sort. -/
def calculate_priority_scores (integrated_results : List IntegratedResult) :
    List PriorityScoreInfo :=
  let maxE := max_evc integrated_results
  let maxM := max_market_size integrated_results
  let _maxP := max_potential integrated_results
  sortByScoreDesc (integrated_results.map (score_info maxE maxM))

/-! ## Formula customizer (`formula_design.py`) -/

/-- `startsWithL p l`: `p` is an initial run of `l` (character lists). -/
def startsWithL : List Char → List Char → Bool
  | [], _ => true
  | _ :: _, [] => false
  | p :: ps, c :: cs => p == c && startsWithL ps cs

/-- `hasSubL p l`: `p` occurs contiguously inside `l`; models Python's
`pat in s` substring test. -/
def hasSubL (p : List Char) : List Char → Bool
  | [] => p.isEmpty
  | c :: cs => startsWithL p (c :: cs) || hasSubL p cs

/-- Python's `pat in s` on strings. -/
def strHasSub (s pat : String) : Bool :=
  hasSubL pat.data s.data

/-- The numeric value of a run of decimal digits (Python's `int(...)` on a
digit string). -/
def digitsVal (cs : List Char) : Nat :=
  cs.foldl (fun n c => n * 10 + (c.toNat - '0'.toNat)) 0

/-- Segment-id analysis of `customize_formula_for_segment`
(lines 120–133): for an id of the form `"s" + digits`
(`segment_id.startswith('s') and segment_id[1:].isdigit()`),
`is_enterprise = (num ≤ 2)` and `is_high_value = (num is odd)`; otherwise the
Japanese labels `大企業` / `高価値` are searched for as substrings.
Returns `(is_enterprise, is_high_value)`. -/
def segment_flags (segment_id : String) : Bool × Bool :=
  match segment_id.data with
  | 's' :: rest =>
    if !rest.isEmpty && rest.all Char.isDigit then
      let segment_num := digitsVal rest
      (segment_num ≤ 2, segment_num % 2 == 1)
    else
      (strHasSub segment_id "大企業", strHasSub segment_id "高価値")
  | _ => (strHasSub segment_id "大企業", strHasSub segment_id "高価値")

/-- The per-component multiplicative adjustments (`R`/`Re`/`Co`/`I`). -/
structure ComponentAdjustments where
  R : ℚ
  Re : ℚ
  Co : ℚ
  I : ℚ
  deriving DecidableEq, Repr

/-- The `adjustments` dictionary of `customize_formula_for_segment`
(lines 177–182). -/
def segment_adjustment_factors (is_enterprise is_high_value : Bool) :
    ComponentAdjustments :=
  { R := 1.0
    Re := 1.0 + (if is_high_value then 0.2 else -0.2)
    Co := 1.0 + (if !is_high_value then 0.2 else -0.1)
    I := 1.0 + (if !is_enterprise then 0.2 else -0.2) }

/-- The adjustments `customize_formula_for_segment` derives for a given
segment id (composition of lines 120–133 and 177–182). -/
def adjustments_for (segment_id : String) : ComponentAdjustments :=
  let (is_enterprise, is_high_value) := segment_flags segment_id
  segment_adjustment_factors is_enterprise is_high_value

/-- The component weights carried by a `base_formula` argument: `none` when
the base formula has no parseable `components` entry for that component, in
which case `customize_formula_for_segment` falls back to the defaults
`1.0 / 1.2 / 1.0 / 0.9` (lines 231–251). -/
structure BaseComponentWeights where
  R : Option ℚ
  Re : Option ℚ
  Co : Option ℚ
  I : Option ℚ
  deriving DecidableEq, Repr

/-- A `base_formula` string that is not a JSON object with a `components`
entry (e.g. the plain string `"EVC = R + (Re + Co) - I"`): every component
weight falls back to its default. -/
def no_base_components : BaseComponentWeights :=
  { R := none, Re := none, Co := none, I := none }

/-- The component weights of the customized formula built by
`customize_formula_for_segment` (lines 226–252):
`components.get(X, {}).get("weight", default_X) * adjustments[X]` with
defaults `1.0 / 1.2 / 1.0 / 0.9` for `R`/`Re`/`Co`/`I`. -/
def customize_formula_weights (segment_id : String)
    (base : BaseComponentWeights) : ComponentAdjustments :=
  let adjustments := adjustments_for segment_id
  { R := (base.R.getD 1.0) * adjustments.R
    Re := (base.Re.getD 1.2) * adjustments.Re
    Co := (base.Co.getD 1.0) * adjustments.Co
    I := (base.I.getD 0.9) * adjustments.I }

/-- `extract_parameter_from_characteristics` (`formula_design.py`,
lines 16–78): returns the value stored in `characteristics` when present
(an empty dict is falsy and skipped), otherwise the default keyed by
`(is_enterprise, is_high_value)`, otherwise the `default` argument
(`None` unless supplied). -/
def extract_parameter_from_characteristics
    (characteristics : List (String × ℚ)) (parameter_name : String)
    (is_enterprise is_high_value : Bool) (default : Option ℚ) : Option ℚ :=
  match (if characteristics.isEmpty then none
         else characteristics.lookup parameter_name) with
  | some v => some v
  | none =>
    if parameter_name = "annual_revenue" then
      some (if is_enterprise then
              (if is_high_value then 1000000000 else 800000000)
            else
              (if is_high_value then 200000000 else 50000000))
    else if parameter_name = "annual_cost" then
      some (if is_enterprise then
              (if is_high_value then 500000000 else 400000000)
            else
              (if is_high_value then 100000000 else 25000000))
    else if parameter_name = "revenue_increase_rate" then
      some (if is_high_value then
              (if is_enterprise then 0.05 else 0.08)
            else
              (if is_enterprise then 0.03 else 0.02))
    else if parameter_name = "cost_reduction_rate" then
      some (if is_high_value then
              (if is_enterprise then 0.15 else 0.12)
            else
              (if is_enterprise then 0.20 else 0.10))
    else if parameter_name = "reference_price" then
      some 15000
    else if parameter_name = "initial_cost" then
      some (if is_enterprise then
              (if is_high_value then 500000 else 400000)
            else
              (if is_high_value then 200000 else 100000))
    else if parameter_name = "operation_cost" then
      some (if is_enterprise then
              (if is_high_value then 10000 else 8000)
            else
              (if is_high_value then 5000 else 3000))
    else if parameter_name = "implementation_years" then
      some 3
    else
      default

/-! ## EVC calculator (`evc_tools.py`, `calculate_evc`, lines 61–564)

The function reads its scalar parameters from the parameter dictionary
(`reference_price`, `implementation_years`, `initial_cost`,
`recurring_cost`) and a per-segment adjustment dictionary
(`segment_adjustments`), and assembles `revenue_components` /
`cost_components` dictionaries from the optional per-service component
configuration (lines 140–434).  Each enabled sub-component contributes
`value * adjustments["Re"]` (resp. `* adjustments["Co"]`); the result uses
those dictionaries only through their value sums, so the embedding takes the
two finished component dictionaries as arguments and quantifies over them.
`implementation_years` is fetched with no default (line 132); when it is
absent the multiplication `recurring_cost * implementation_years`
(line 453) raises a `TypeError`, modelled as `none`. -/

/-- The `adjustments` entry used by `calculate_evc` (default
`{"Re": 1.0, "Co": 1.0, "I": 1.0}`, line 128). -/
structure EVCAdjustments where
  Re : ℚ
  Co : ℚ
  I : ℚ
  deriving DecidableEq, Repr

/-- A labeled value component of the EVC result (`ValueComponent`): the
claims use its `value` and the recorded `adjustment`. -/
structure ValueComponentM where
  value : ℚ
  adjustment : ℚ
  deriving DecidableEq, Repr

/-- `EVCComponents` (lines 536–541). -/
structure EVCComponentsM where
  reference_price : ℚ
  revenue_enhancement : ValueComponentM
  cost_optimization : ValueComponentM
  implementation_cost : ℚ
  deriving DecidableEq, Repr

/-- The `calculation_details` dictionary of the result (lines 556–563). -/
structure EVCCalculationDetails where
  evc_value : ℚ
  reference_price : ℚ
  revenue_enhancement_value : ℚ
  cost_optimization_value : ℚ
  implementation_cost : ℚ
  deriving DecidableEq, Repr

/-- `EVCResult` (lines 551–564). -/
structure EVCResultM where
  segment_id : String
  segment_name : String
  evc_value : ℚ
  components : EVCComponentsM
  calculation_details : EVCCalculationDetails
  deriving DecidableEq, Repr

/-- The `segment_names` mapping (lines 544–549). -/
def segment_names : List (String × String) :=
  [("s1", "大企業・高価値"), ("s2", "大企業・低価値"),
   ("s3", "中小企業・高価値"), ("s4", "中小企業・低価値")]

/-- `calculate_evc` (lines 61–564).  `params` is the parsed parameter
dictionary restricted to its numeric entries; `segment_adjustments` is the
dictionary fetched from `params_dict["segment_adjustments"]` (line 125);
`revenue_components` / `cost_components` are the component-value dictionaries
built by lines 140–434 (already scaled by `adjustments["Re"]` /
`adjustments["Co"]`), over which the theorems quantify.  Returns `none` when
`implementation_years` is absent (`TypeError` at line 453). -/
def calculate_evc (segment_id : String) (params : List (String × ℚ))
    (segment_adjustments : List (String × EVCAdjustments))
    (revenue_components cost_components : List (String × ℚ)) :
    Option EVCResultM :=
  let reference_price : ℚ := dictGetD params "reference_price" 0
  let adjustments : EVCAdjustments :=
    dictGetD segment_adjustments segment_id { Re := 1.0, Co := 1.0, I := 1.0 }
  match params.lookup "implementation_years" with
  | none => none
  | some implementation_years =>
    let revenue_enhancement_value : ℚ := (revenue_components.map (·.2)).sum
    let cost_optimization_value : ℚ := (cost_components.map (·.2)).sum
    let initial_cost : ℚ := dictGetD params "initial_cost" 0
    let recurring_cost : ℚ := dictGetD params "recurring_cost" 0
    let implementation_cost_value : ℚ :=
      (initial_cost + recurring_cost * implementation_years) * adjustments.I
    let evc_value : ℚ :=
      reference_price + (revenue_enhancement_value + cost_optimization_value)
        - implementation_cost_value
    some
      { segment_id := segment_id
        segment_name := dictGetD segment_names segment_id ("セグメント " ++ segment_id)
        evc_value := evc_value
        components :=
          { reference_price := reference_price
            revenue_enhancement :=
              { value := revenue_enhancement_value, adjustment := adjustments.Re }
            cost_optimization :=
              { value := cost_optimization_value, adjustment := adjustments.Co }
            implementation_cost := implementation_cost_value }
        calculation_details :=
          { evc_value := evc_value
            reference_price := reference_price
            revenue_enhancement_value := revenue_enhancement_value
            cost_optimization_value := cost_optimization_value
            implementation_cost := implementation_cost_value } }

/-! ## Market potential estimator (`market_potential.py`,
`calculate_segment_potential`, lines 150–213)

`json.loads` of the two string arguments is modelled by `Option`-valued
parse results (`none` = the `try` block of lines 169–176 caught a parse
exception).  The parsed `segment_info` is only forwarded opaquely to the
AI estimators, so it is modelled as `Option Unit`; the parsed `evc_result`
may be any JSON document: an object with numeric fields, or a non-object
value (array, string, number, …) on which `evc_data.get("evc_value")`
(line 179, outside any `try`) raises an `AttributeError`.  The two AI
estimate triples (company count and acquisition rate) are injected as
arguments; the fallback defaults of the estimators guarantee the
`min`/`expected`/`max` keys exist. -/

/-- A parsed `evc_result` JSON document: an object (dict) with numeric
fields, or any non-object JSON value. -/
inductive ParsedEvc where
  | obj (fields : List (String × ℚ))
  | nonObj
  deriving DecidableEq, Repr

/-- A `{min, expected, max}` estimate triple. -/
structure EstimateTriple where
  min : ℚ
  expected : ℚ
  max : ℚ
  deriving DecidableEq, Repr

/-- The `potential_value` triple of the result (lines 205–209). -/
structure PotentialValue where
  min : ℚ
  expected : ℚ
  max : ℚ
  deriving DecidableEq, Repr

/-- The successful result dictionary (lines 200–211). -/
structure MarketPotentialResult where
  segment_id : String
  companies : EstimateTriple
  acquisition_rate : EstimateTriple
  evc_value : ℚ
  potential_value : PotentialValue
  deriving DecidableEq, Repr

/-- Outcome of `calculate_segment_potential`: an explicit
`{error, message}` dictionary, an uncaught Python exception, or a result
dictionary (which carries no `error` key). -/
inductive PotentialOutcome where
  | errorResult (error message : String)
  | raised (exception_type : String)
  | ok (result : MarketPotentialResult)
  deriving DecidableEq, Repr

/-- `True` exactly on the `{error, message}` outcomes. -/
def PotentialOutcome.hasErrorKey : PotentialOutcome → Bool
  | .errorResult _ _ => true
  | _ => false

/-- `calculate_segment_potential` (lines 150–213): parse both inputs
(returning `{error, message}` on failure, lines 169–176), return
`{error, message}` when `evc_data.get("evc_value")` is falsy (absent or
zero, lines 179–183), and otherwise multiply the estimate triples
element-wise by `evc_value` (lines 195–197).  When `evc_result` parses to a
non-object, line 179 raises `AttributeError` instead. -/
def calculate_segment_potential (segment_id : String)
    (segment_info : Option Unit) (evc_result : Option ParsedEvc)
    (company_estimate acquisition_rate : EstimateTriple) : PotentialOutcome :=
  match segment_info, evc_result with
  | some _, some evc_data =>
    match evc_data with
    | .nonObj => .raised "AttributeError"
    | .obj fields =>
      match fields.lookup "evc_value" with
      | none => .errorResult "EVC値が見つかりません" "有効なEVC計算結果が必要です"
      | some evc_value =>
        if evc_value = 0 then
          .errorResult "EVC値が見つかりません" "有効なEVC計算結果が必要です"
        else
          .ok
            { segment_id := segment_id
              companies := company_estimate
              acquisition_rate := acquisition_rate
              evc_value := evc_value
              potential_value :=
                { min := company_estimate.min * acquisition_rate.min * evc_value
                  expected :=
                    company_estimate.expected * acquisition_rate.expected * evc_value
                  max := company_estimate.max * acquisition_rate.max * evc_value } }
  | _, _ => .errorResult "データ形式が不正です" "JSONDecodeError"

/-! ## Dynamic model of `calculate_priority_scores`

`calculate_priority_scores` is declared to take `List[str]`, and in the
deployed agent the argument arrives as a JSON string; but lines 204–206 and
211 iterate over the *raw* `integrated_results` argument (the parsed
`processed_integrated_results` of lines 147–194 is computed — all its
branches wrapped in `try/except`, never raising — and then discarded).  The
dynamic model below embeds lines 195–287 over Python-like values so that the
`AttributeError` raised by `element.get(...)` on non-dict elements, and the
truthiness of empty containers, are expressible. -/

/-- A Python value: `None`, a number, a string, a list, or a
string-keyed dict. -/
inductive PVal where
  | null
  | num (q : ℚ)
  | str (s : String)
  | list (xs : List PVal)
  | dict (entries : List (String × PVal))

/-- Python exception classes raised by the modelled code. -/
inductive PyErr where
  | attributeError
  | typeError
  | valueError
  deriving DecidableEq, Repr

/-- Python truthiness: `None`, `0`, `""` and empty containers are falsy. -/
def PVal.truthy : PVal → Bool
  | .null => false
  | .num q => q != 0
  | .str s => !s.data.isEmpty
  | .list xs => !xs.isEmpty
  | .dict entries => !entries.isEmpty

/-- `for x in v`: a string yields its characters (as 1-character strings), a
list its elements, a dict its keys; a number or `None` is not iterable
(`TypeError`). -/
def PVal.iter : PVal → Except PyErr (List PVal)
  | .str s => .ok (s.data.map fun c => .str (String.mk [c]))
  | .list xs => .ok xs
  | .dict entries => .ok (entries.map fun kv => .str kv.1)
  | .num _ => .error .typeError
  | .null => .error .typeError

/-- `v.get(k, default)`: dictionary lookup; on any non-dict value the
attribute access raises `AttributeError`. -/
def PVal.get (v : PVal) (k : String) (default : PVal) : Except PyErr PVal :=
  match v with
  | .dict entries => .ok ((entries.lookup k).getD default)
  | _ => .error .attributeError

/-- Binary `max` step: Python compares numbers with numbers and strings with
strings; comparing across these types raises `TypeError`.  On ties the first
argument is kept, as in CPython's `max`. -/
def pyMax2 : PVal → PVal → Except PyErr PVal
  | .num a, .num b => .ok (.num (if a < b then b else a))
  | .str a, .str b => .ok (.str (if a < b then b else a))
  | _, _ => .error .typeError

/-- `max(l)`: `ValueError` on an empty sequence, otherwise a left fold of
`pyMax2` (other orderable element types never reach this call in the
modelled function: non-dict elements raise in `.get` first). -/
def pyMaxList : List PVal → Except PyErr PVal
  | [] => .error .valueError
  | v :: vs => vs.foldlM pyMax2 v

/-- `[r.get(key, 0) for r in elems]` — the comprehension body of
lines 204–206: the first element raising propagates its exception. -/
def mapGetKey (key : String) : List PVal → Except PyErr (List PVal)
  | [] => .ok []
  | r :: rs =>
    match r.get key (.num 0) with
    | .error e => .error e
    | .ok v =>
      match mapGetKey key rs with
      | .error e => .error e
      | .ok vs => .ok (v :: vs)

/-- `max([r.get(key, 0) for r in rs]) if rs else 1` — one batch maximum
(lines 204–206) over the raw argument. -/
def pyBatchMax (integrated_results : PVal) (key : String) :
    Except PyErr PVal :=
  if integrated_results.truthy then
    match integrated_results.iter with
    | .error e => .error e
    | .ok elems =>
      match mapGetKey key elems with
      | .error e => .error e
      | .ok vals => pyMaxList vals
  else
    .ok (.num 1)

/-- `a > 0` on a Python value: numeric comparison, `TypeError` otherwise. -/
def pyGtZero : PVal → Except PyErr Bool
  | .num a => .ok (decide (0 < a))
  | _ => .error .typeError

/-- `a / b` (both operands must be numbers; division by zero raises). -/
def pyDiv : PVal → PVal → Except PyErr PVal
  | .num a, .num b =>
    if b = 0 then .error .valueError else .ok (.num (a / b))
  | _, _ => .error .typeError

/-- `a * b` restricted to numbers (in the modelled lines the left operand is
always a float weight, so non-numeric right operands raise `TypeError`). -/
def pyMul : PVal → PVal → Except PyErr PVal
  | .num a, .num b => .ok (.num (a * b))
  | _, _ => .error .typeError

/-- `a + b` restricted to numbers (the summed operands are weight products). -/
def pyAdd : PVal → PVal → Except PyErr PVal
  | .num a, .num b => .ok (.num (a + b))
  | _, _ => .error .typeError

/-- `min(a, b)` restricted to numbers. -/
def pyMin2 : PVal → PVal → Except PyErr PVal
  | .num a, .num b => .ok (.num (min a b))
  | _, _ => .error .typeError

/-- The scoring-loop body (lines 211–277) on a Python value, given the two
batch maxima: each `result.get` raises `AttributeError` on non-dict
elements; the conditional normalizations evaluate their guard first, as the
Python conditional expressions do. -/
def pyScoreOne (maxE maxM : PVal) (result : PVal) : Except PyErr PVal := do
  let segment_id ← result.get "segment_id" .null
  let segment_name ← result.get "segment_name" .null
  let gtE ← pyGtZero maxE
  let normalized_evc ←
    if gtE then do
      let v ← result.get "evc_value" (.num 0)
      pyDiv v maxE
    else
      pure (.num 0)
  let gtM ← pyGtZero maxM
  let normalized_market_size ←
    if gtM then do
      let v ← result.get "market_size" (.num 0)
      pyDiv v maxM
    else
      pure (.num 0)
  let normalized_acquisition ← result.get "acquisition_probability" (.num 0)
  let market_analysis ← result.get "market_analysis" (.dict [])
  let growth_rate ← market_analysis.get "market_growth_rate" (.num 0)
  let growth_ratio ← pyDiv growth_rate (.num 0.1)
  let normalized_growth ← pyMin2 growth_ratio (.num 1)
  let t_evc ← pyMul (.num 0.4) normalized_evc
  let t_market ← pyMul (.num 0.2) normalized_market_size
  let t_acq ← pyMul (.num 0.3) normalized_acquisition
  let t_growth ← pyMul (.num 0.1) normalized_growth
  let s1 ← pyAdd t_evc t_market
  let s2 ← pyAdd s1 t_acq
  let priority_score ← pyAdd s2 t_growth
  let rank ←
    match priority_score with
    | .num q => pure (PVal.str (priority_rank q))
    | _ => .error .typeError
  let raw_evc ← result.get "evc_value" (.num 0)
  let raw_market ← result.get "market_size" (.num 0)
  pure (.dict
    [("segment_id", segment_id), ("segment_name", segment_name),
     ("priority_score", priority_score), ("priority_rank", rank),
     ("score_components", .dict
       [("evc_value", .dict
          [("raw_value", raw_evc), ("normalized_value", normalized_evc),
           ("weight", .num 0.4), ("contribution", t_evc)]),
        ("market_size", .dict
          [("raw_value", raw_market),
           ("normalized_value", normalized_market_size),
           ("weight", .num 0.2), ("contribution", t_market)]),
        ("acquisition_probability", .dict
          [("raw_value", normalized_acquisition),
           ("normalized_value", normalized_acquisition),
           ("weight", .num 0.3), ("contribution", t_acq)]),
        ("growth_potential", .dict
          [("raw_value", growth_rate),
           ("normalized_value", normalized_growth),
           ("weight", .num 0.1), ("contribution", t_growth)])])])

/-- The scoring loop over the raw argument's elements. -/
def pyScoreAll (maxE maxM : PVal) : List PVal → Except PyErr (List PVal)
  | [] => .ok []
  | r :: rs =>
    match pyScoreOne maxE maxM r with
    | .error e => .error e
    | .ok info =>
      match pyScoreAll maxE maxM rs with
      | .error e => .error e
      | .ok infos => .ok (info :: infos)

/-- The sort key `x["priority_score"]` (always a number for the dicts built
by the loop; `0` is never consulted on those). -/
def pyScoreKey (v : PVal) : ℚ :=
  match v with
  | .dict entries =>
    match entries.lookup "priority_score" with
    | some (.num q) => q
    | _ => 0
  | _ => 0

/-- `calculate_priority_scores` (lines 195–287) on an arbitrary Python
value: the parse preamble (lines 147–194) never raises and its result is
unused, so the behaviour is the batch maxima over the raw argument, the
scoring loop over the raw argument, and the stable descending sort. -/
def pyCalculatePriorityScores (integrated_results : PVal) :
    Except PyErr (List PVal) :=
  match pyBatchMax integrated_results "evc_value" with
  | .error e => .error e
  | .ok maxE =>
    match pyBatchMax integrated_results "market_size" with
    | .error e => .error e
    | .ok maxM =>
      match pyBatchMax integrated_results "total_potential_value" with
      | .error e => .error e
      | .ok _maxP =>
        match integrated_results.iter with
        | .error e => .error e
        | .ok elems =>
          match pyScoreAll maxE maxM elems with
          | .error e => .error e
          | .ok infos =>
            .ok (sortStable (fun a b => decide (pyScoreKey b ≤ pyScoreKey a)) infos)

/-- `v` is a dictionary. -/
def PVal.isDict : PVal → Bool
  | .dict _ => true
  | _ => false

/-- `v` is a list all of whose elements are dictionaries. -/
def PVal.isListOfDicts : PVal → Bool
  | .list xs => xs.all PVal.isDict
  | _ => false

/-- Whether a modelled call returned normally (as opposed to raising). -/
def isOkB : Except PyErr (List PVal) → Bool
  | .ok _ => true
  | .error _ => false

/-- `market_analysis.get("market_growth_rate", 0)` for one segment
(line 222). -/
def growth_rate_of (r : IntegratedResult) : ℚ :=
  dictGetD r.market_analysis "market_growth_rate" 0

/-! ## Concrete example inputs

Inputs used by the counterexample and witness theorems below.  Each value is
a direct transliteration of a dictionary/JSON document the corresponding
Python function can receive. -/

/-- A batch whose only segment has a negative EVC value: the batch maximum
is negative, so the `max_evc > 0` guard (line 216) zeroes the EVC factor
instead of dividing by the batch maximum. -/
def negEvcSegment : IntegratedResult :=
  { segment_id := "s9", segment_name := "負のEVC", evc_value := -1,
    market_size := 2, acquisition_probability := 0,
    total_potential_value := 0, market_analysis := [] }

/-- A single-segment batch: the segment trivially attains every batch
maximum (evc 10, market 5, acquisition 0.5, growth 0.2). -/
def soleMaxSegment : IntegratedResult :=
  { segment_id := "s1", segment_name := "単独", evc_value := 10,
    market_size := 5, acquisition_probability := 0.5,
    total_potential_value := 0,
    market_analysis := [("market_growth_rate", 0.2)] }

/-- A segment with a negative EVC value in a batch whose maximum is
positive: its normalized EVC value is negative. -/
def negInPositiveBatchA : IntegratedResult :=
  { segment_id := "s8", segment_name := "負", evc_value := -5,
    market_size := 0, acquisition_probability := 0,
    total_potential_value := 0, market_analysis := [] }

/-- The positive-EVC companion of `negInPositiveBatchA`. -/
def negInPositiveBatchB : IntegratedResult :=
  { segment_id := "s7", segment_name := "正", evc_value := 10,
    market_size := 1, acquisition_probability := 0,
    total_potential_value := 0, market_analysis := [] }

/-- A segment whose priority score is exactly `0.8`
(`0.4·1 + 0.2·1 + 0.3·(2/3) + 0.1·0`). -/
def boundarySegment08 : IntegratedResult :=
  { segment_id := "s1", segment_name := "境界0.8", evc_value := 1,
    market_size := 1, acquisition_probability := 2/3,
    total_potential_value := 0, market_analysis := [] }

/-- A segment whose priority score is exactly `0.79999`
(`0.4·1 + 0.2·1 + 0.3·(19999/30000) + 0.1·0`). -/
def boundarySegment079999 : IntegratedResult :=
  { segment_id := "s2", segment_name := "境界0.79999", evc_value := 1,
    market_size := 1, acquisition_probability := 19999/30000,
    total_potential_value := 0, market_analysis := [] }

/-- A segment with batch-max positive EVC and market size, acquisition
probability 1 and growth rate above the 10% saturation point. -/
def fullScoreSegment : IntegratedResult :=
  { segment_id := "s1", segment_name := "満点", evc_value := 4,
    market_size := 2, acquisition_probability := 1,
    total_potential_value := 0,
    market_analysis := [("market_growth_rate", 0.25)] }

/-- A well-formed priority-score batch used by witnesses. -/
def mixedBatch : List IntegratedResult :=
  [fullScoreSegment,
   { segment_id := "s4", segment_name := "低", evc_value := 1,
     market_size := 1, acquisition_probability := 0.2,
     total_potential_value := 0,
     market_analysis := [("market_growth_rate", 0.02)] }]

/-- A `calculate_evc` parameter dictionary using the `operation_cost` key
produced by the formula-design stage (`formula_design.py`, lines 62–72 and
253–264). -/
def operationCostParams : List (String × ℚ) :=
  [("reference_price", 15000), ("implementation_years", 3),
   ("initial_cost", 500000), ("operation_cost", 10000)]

/-- A `calculate_evc` parameter dictionary using the `recurring_cost` key
the function actually reads (line 446). -/
def recurringCostParams : List (String × ℚ) :=
  [("reference_price", 15000), ("implementation_years", 3),
   ("initial_cost", 500000), ("recurring_cost", 10000)]

/-- Example revenue-component dictionary (one enabled sub-component). -/
def revenueComponentsEx : List (String × ℚ) := [("new_revenue", 1000)]

/-- Example cost-component dictionary (one enabled sub-component). -/
def costComponentsEx : List (String × ℚ) := [("direct_cost_reduction", 500)]

/-- The result of `calculate_evc "s1" recurringCostParams [] revenueComponentsEx
costComponentsEx`: implementation cost `(500000 + 10000·3)·1 = 530000`,
EVC `15000 + (1000 + 500) - 530000 = -513500`. -/
def evcResultEx : EVCResultM :=
  { segment_id := "s1", segment_name := "大企業・高価値"
    evc_value := -513500
    components :=
      { reference_price := 15000
        revenue_enhancement := { value := 1000, adjustment := 1.0 }
        cost_optimization := { value := 500, adjustment := 1.0 }
        implementation_cost := 530000 }
    calculation_details :=
      { evc_value := -513500, reference_price := 15000
        revenue_enhancement_value := 1000, cost_optimization_value := 500
        implementation_cost := 530000 } }

/-- The fallback company estimate of `estimate_companies_with_ai`
(lines 262–267). -/
def companiesFallback : EstimateTriple :=
  { min := 100, expected := 500, max := 1000 }

/-- The fallback acquisition-rate estimate of
`estimate_acquisition_rate_with_ai`. -/
def acquisitionFallback : EstimateTriple :=
  { min := 0.05, expected := 0.15, max := 0.30 }

/-- `not evc_data.get("evc_value")` is true on a parsed EVC object: the
key is absent or its (numeric) value is zero. -/
def evc_value_falsy (fields : List (String × ℚ)) : Prop :=
  fields.lookup "evc_value" = none ∨ fields.lookup "evc_value" = some 0

/-- `evc_data.get("evc_value")` is truthy on a parsed EVC object: the key
holds a non-zero value. -/
def evc_value_truthy (fields : List (String × ℚ)) : Prop :=
  ∃ v, fields.lookup "evc_value" = some v ∧ v ≠ 0

/-- A parsed EVC result object with a non-zero `evc_value`. -/
def evcObjEx : ParsedEvc := .obj [("evc_value", 100000)]

/-- The market-potential result for `evcObjEx` under the fallback
estimates: `100·0.05·100000 / 500·0.15·100000 / 1000·0.30·100000`. -/
def marketPotentialResultEx : MarketPotentialResult :=
  { segment_id := "s1", companies := companiesFallback,
    acquisition_rate := acquisitionFallback, evc_value := 100000,
    potential_value := { min := 500000, expected := 7500000, max := 30000000 } }

/-! ## Helper lemmas -/

theorem mem_insertSorted {le : α → α → Bool} {a x : α} {l : List α} :
    x ∈ insertSorted le a l ↔ x = a ∨ x ∈ l := by
  induction l with
  | nil => simp [insertSorted]
  | cons y ys ih =>
    simp only [insertSorted]
    split
    · simp [List.mem_cons]
    · simp only [List.mem_cons, ih]
      tauto

theorem mem_sortStable {le : α → α → Bool} {l : List α} {x : α} :
    x ∈ sortStable le l ↔ x ∈ l := by
  induction l with
  | nil => simp [sortStable]
  | cons y ys ih =>
    show x ∈ insertSorted le y (sortStable le ys) ↔ _
    rw [mem_insertSorted]
    simp [ih]

theorem le_foldl_max_init (l : List ℚ) (b : ℚ) : b ≤ l.foldl max b := by
  induction l generalizing b with
  | nil => simp
  | cons c cs ih => exact le_trans (le_max_left b c) (ih (max b c))

theorem le_foldl_max_of_mem {a : ℚ} {l : List ℚ} (h : a ∈ l) (b : ℚ) :
    a ≤ l.foldl max b := by
  induction l generalizing b with
  | nil => cases h
  | cons c cs ih =>
    rcases List.mem_cons.mp h with rfl | h2
    · exact le_trans (le_max_right b a) (le_foldl_max_init cs _)
    · exact ih h2 _

/-- Every batch element's metric is bounded by the batch maximum. -/
theorem le_batch_max {f : IntegratedResult → ℚ} {rs : List IntegratedResult}
    {r : IntegratedResult} (h : r ∈ rs) : f r ≤ batch_max f rs := by
  unfold batch_max
  cases rs with
  | nil => cases h
  | cons r0 rest =>
    simp only [List.map_cons]
    rcases List.mem_cons.mp h with rfl | h2
    · exact le_foldl_max_init _ _
    · exact le_foldl_max_of_mem (List.mem_map_of_mem _ h2) _

/-- The output records of `calculate_priority_scores` are exactly the scored
input records (the final sort only permutes them). -/
theorem mem_calculate_priority_scores {rs : List IntegratedResult}
    {info : PriorityScoreInfo} :
    info ∈ calculate_priority_scores rs ↔
      ∃ r ∈ rs, info = score_info (max_evc rs) (max_market_size rs) r := by
  unfold calculate_priority_scores sortByScoreDesc
  rw [mem_sortStable]
  simp [eq_comm]

/-- Characterization of the five rank bands of `priority_rank`. -/
theorem priority_rank_cases (s : ℚ) :
    (priority_rank s = "最優先" ↔ 0.8 ≤ s) ∧
    (priority_rank s = "高優先" ↔ 0.6 ≤ s ∧ s < 0.8) ∧
    (priority_rank s = "中優先" ↔ 0.4 ≤ s ∧ s < 0.6) ∧
    (priority_rank s = "低優先" ↔ 0.2 ≤ s ∧ s < 0.4) ∧
    (priority_rank s = "最低優先" ↔ s < 0.2) := by
  unfold priority_rank
  split_ifs with h1 h2 h3 h4 <;>
    refine ⟨?_, ?_, ?_, ?_, ?_⟩ <;>
    constructor <;>
    intro hx <;>
    first
      | rfl
      | (exact absurd hx (by decide))
      | linarith [hx.1, hx.2]
      | (exact ⟨by linarith, by linarith⟩)
      | linarith

/-! ## Claim theorems -/

/-- Claim C1: for every parameters input accepted by `calculate_evc`
(in particular, containing `implementation_years`), the returned result
satisfies `evc_value = reference_price + (revenue_enhancement.value +
cost_optimization.value) - implementation_cost`, where the component values
are the ones recorded in the same result's `components` and
`calculation_details`.  The identity is exact over `ℚ`, hence within the
claimed `1e-9` tolerance. -/
theorem evc_identity (segment_id : String) (params : List (String × ℚ))
    (segment_adjustments : List (String × EVCAdjustments))
    (revenue_components cost_components : List (String × ℚ)) (res : EVCResultM)
    (h : calculate_evc segment_id params segment_adjustments
          revenue_components cost_components = some res) :
    res.evc_value =
        res.components.reference_price +
          (res.components.revenue_enhancement.value +
            res.components.cost_optimization.value) -
          res.components.implementation_cost ∧
    res.evc_value =
        res.calculation_details.reference_price +
          (res.calculation_details.revenue_enhancement_value +
            res.calculation_details.cost_optimization_value) -
          res.calculation_details.implementation_cost ∧
    res.calculation_details.evc_value = res.evc_value := by
  unfold calculate_evc at h
  cases hy : params.lookup "implementation_years" with
  | none => rw [hy] at h; cases h
  | some y =>
    rw [hy] at h
    injection h with h
    subst h
    exact ⟨rfl, rfl, rfl⟩

/-- Witness for C1: the EVC identity evaluated on a concrete parameter
dictionary. -/
theorem evc_identity_witness :
    calculate_evc "s1" recurringCostParams [] revenueComponentsEx costComponentsEx
        = some evcResultEx ∧
    evcResultEx.evc_value =
        evcResultEx.components.reference_price +
          (evcResultEx.components.revenue_enhancement.value +
            evcResultEx.components.cost_optimization.value) -
          evcResultEx.components.implementation_cost := by
  have hcalc : calculate_evc "s1" recurringCostParams [] revenueComponentsEx
      costComponentsEx = some evcResultEx := by
    simp [calculate_evc, recurringCostParams, revenueComponentsEx,
      costComponentsEx, evcResultEx, dictGetD, segment_names, List.lookup]
    norm_num
  exact ⟨hcalc, (evc_identity _ _ _ _ _ _ hcalc).1⟩

/-- Counterexample to claim C6 as stated: `calculate_evc` reads the
parameter key `recurring_cost` (line 446), not `operation_cost` (the name
used by the formula-design stage and the §4.1 table).  On a parameter
dictionary carrying `operation_cost = 10000` the computed implementation
cost is `(500000 + 0·3)·1 = 500000`, while the claimed formula
`(initial_cost + operation_cost·implementation_years)·weights.I` yields
`530000`. -/
theorem implementation_cost_key_counterexample :
    (calculate_evc "s1" operationCostParams [] [] []).map
        (fun res => res.components.implementation_cost) = some 500000 ∧
    (dictGetD operationCostParams "initial_cost" 0 +
        dictGetD operationCostParams "operation_cost" 0 *
          dictGetD operationCostParams "implementation_years" 0) * 1 = 530000 ∧
    (500000 : ℚ) ≠ 530000 := by
  refine ⟨?_, ?_, by norm_num⟩
  · simp [calculate_evc, operationCostParams, dictGetD, segment_names, List.lookup]
    norm_num
  · simp [dictGetD, operationCostParams, List.lookup]
    norm_num

/-- Claim C6 as amended: the implementation cost used in the EVC result
equals `(initial_cost + recurring_cost · implementation_years) · weights.I`,
where `recurring_cost` (not `operation_cost`) is the parameter key read for
the recurring operation cost, both cost parameters default to `0`, and
`weights.I` is the segment's `I` adjustment (default `1.0`). -/
theorem implementation_cost_formula (segment_id : String)
    (params : List (String × ℚ))
    (segment_adjustments : List (String × EVCAdjustments))
    (revenue_components cost_components : List (String × ℚ))
    (res : EVCResultM) (y : ℚ)
    (hy : params.lookup "implementation_years" = some y)
    (h : calculate_evc segment_id params segment_adjustments
          revenue_components cost_components = some res) :
    res.components.implementation_cost =
      (dictGetD params "initial_cost" 0 + dictGetD params "recurring_cost" 0 * y) *
        (dictGetD segment_adjustments segment_id
          { Re := 1.0, Co := 1.0, I := 1.0 }).I := by
  unfold calculate_evc at h
  rw [hy] at h
  injection h with h
  subst h
  rfl

/-- Witness for the amended C6: on a concrete parameter dictionary carrying
`recurring_cost` the formula is exercised end to end. -/
theorem implementation_cost_formula_witness :
    (recurringCostParams.lookup "implementation_years" = some 3) ∧
    calculate_evc "s1" recurringCostParams [] revenueComponentsEx costComponentsEx
        = some evcResultEx ∧
    evcResultEx.components.implementation_cost =
      (dictGetD recurringCostParams "initial_cost" 0 +
        dictGetD recurringCostParams "recurring_cost" 0 * 3) *
        (dictGetD ([] : List (String × EVCAdjustments)) "s1"
          { Re := 1.0, Co := 1.0, I := 1.0 }).I := by
  have hy : recurringCostParams.lookup "implementation_years" = some 3 := by
    simp [recurringCostParams, List.lookup]
  have hcalc : calculate_evc "s1" recurringCostParams [] revenueComponentsEx
      costComponentsEx = some evcResultEx := by
    simp [calculate_evc, recurringCostParams, revenueComponentsEx,
      costComponentsEx, evcResultEx, dictGetD, segment_names, List.lookup]
    norm_num
  exact ⟨hy, hcalc, implementation_cost_formula _ _ _ _ _ _ _ hy hcalc⟩

/-- Counterexample to claim C2 as stated: the normalization does not always
divide by the batch maximum — lines 216–217 guard with `max_evc > 0`.  On a
batch whose only segment has `evc_value = -1` (and `market_size = 2`), the
claimed formula (divide by the batch maxima `-1` and `2`) yields `0.6`,
while the code zeroes the EVC factor and returns `0.2`. -/
theorem priority_score_formula_counterexample :
    (calculate_priority_scores [negEvcSegment]).map PriorityScoreInfo.priority_score
        = [0.2] ∧
    priority_weights.evc_value * (negEvcSegment.evc_value / max_evc [negEvcSegment]) +
      priority_weights.market_size *
        (negEvcSegment.market_size / max_market_size [negEvcSegment]) +
      priority_weights.acquisition_probability * negEvcSegment.acquisition_probability +
      priority_weights.growth_potential * min (growth_rate_of negEvcSegment / 0.1) 1
        = 0.6 ∧
    (0.2 : ℚ) ≠ 0.6 := by
  refine ⟨?_, ?_, by norm_num⟩
  · simp [calculate_priority_scores, negEvcSegment, score_info, max_evc,
      max_market_size, max_potential, batch_max, dictGetD, priority_weights,
      sortByScoreDesc, sortStable, insertSorted, priority_rank, List.lookup]
  · simp [negEvcSegment, max_evc, max_market_size, batch_max, growth_rate_of,
      dictGetD, priority_weights, List.lookup]
    norm_num

/-- Claim C2 as amended: each segment's `priority_score` equals
`0.4·normalized_evc + 0.2·normalized_market_size + 0.3·acquisition +
0.1·min(growth/0.1, 1)`, where the EVC and market-size factors divide the
segment's value by the batch maximum *when that maximum is positive* and are
`0` otherwise; the four weights sum to `1.0` and every `score_components`
entry's contribution equals its weight times its normalized value (and the
score is the sum of the four contributions). -/
theorem priority_score_formula (rs : List IntegratedResult)
    (r : IntegratedResult) (hr : r ∈ rs) :
    score_info (max_evc rs) (max_market_size rs) r ∈ calculate_priority_scores rs ∧
    (score_info (max_evc rs) (max_market_size rs) r).priority_score =
      priority_weights.evc_value *
        (if max_evc rs > 0 then r.evc_value / max_evc rs else 0) +
      priority_weights.market_size *
        (if max_market_size rs > 0 then r.market_size / max_market_size rs else 0) +
      priority_weights.acquisition_probability * r.acquisition_probability +
      priority_weights.growth_potential * min (growth_rate_of r / 0.1) 1 ∧
    priority_weights.evc_value + priority_weights.market_size +
      priority_weights.acquisition_probability + priority_weights.growth_potential
        = 1 ∧
    (∀ info ∈ calculate_priority_scores rs,
      info.score_components.evc_value.contribution =
        info.score_components.evc_value.weight *
          info.score_components.evc_value.normalized_value ∧
      info.score_components.market_size.contribution =
        info.score_components.market_size.weight *
          info.score_components.market_size.normalized_value ∧
      info.score_components.acquisition_probability.contribution =
        info.score_components.acquisition_probability.weight *
          info.score_components.acquisition_probability.normalized_value ∧
      info.score_components.growth_potential.contribution =
        info.score_components.growth_potential.weight *
          info.score_components.growth_potential.normalized_value ∧
      info.priority_score =
        info.score_components.evc_value.contribution +
        info.score_components.market_size.contribution +
        info.score_components.acquisition_probability.contribution +
        info.score_components.growth_potential.contribution) := by
  refine ⟨mem_calculate_priority_scores.mpr ⟨r, hr, rfl⟩, rfl,
    by norm_num [priority_weights], ?_⟩
  intro info hinfo
  obtain ⟨r2, _, rfl⟩ := mem_calculate_priority_scores.mp hinfo
  exact ⟨rfl, rfl, rfl, rfl, rfl⟩

/-- Witness for the amended C2 on a concrete two-segment batch. -/
theorem priority_score_formula_witness :
    score_info (max_evc mixedBatch) (max_market_size mixedBatch) fullScoreSegment
        ∈ calculate_priority_scores mixedBatch ∧
    (score_info (max_evc mixedBatch) (max_market_size mixedBatch)
        fullScoreSegment).priority_score =
      priority_weights.evc_value *
        (if max_evc mixedBatch > 0 then
          fullScoreSegment.evc_value / max_evc mixedBatch else 0) +
      priority_weights.market_size *
        (if max_market_size mixedBatch > 0 then
          fullScoreSegment.market_size / max_market_size mixedBatch else 0) +
      priority_weights.acquisition_probability *
        fullScoreSegment.acquisition_probability +
      priority_weights.growth_potential *
        min (growth_rate_of fullScoreSegment / 0.1) 1 := by
  have h := priority_score_formula mixedBatch fullScoreSegment (by simp [mixedBatch])
  exact ⟨h.1, h.2.1⟩

/-- Claim C3: every computed `priority_rank` is determined from the
segment's `priority_score` by thresholds closed on the lower bound and
checked in descending order: `≥0.8 → 最優先`, `≥0.6 → 高優先`,
`≥0.4 → 中優先`, `≥0.2 → 低優先`, otherwise `最低優先`; in particular a
score of exactly `0.8` maps to `最優先` and `0.79999` to `高優先`
(exercised by the witness). -/
theorem rank_thresholds (rs : List IntegratedResult) (info : PriorityScoreInfo)
    (h : info ∈ calculate_priority_scores rs) :
    (info.priority_rank = "最優先" ↔ 0.8 ≤ info.priority_score) ∧
    (info.priority_rank = "高優先" ↔
      0.6 ≤ info.priority_score ∧ info.priority_score < 0.8) ∧
    (info.priority_rank = "中優先" ↔
      0.4 ≤ info.priority_score ∧ info.priority_score < 0.6) ∧
    (info.priority_rank = "低優先" ↔
      0.2 ≤ info.priority_score ∧ info.priority_score < 0.4) ∧
    (info.priority_rank = "最低優先" ↔ info.priority_score < 0.2) := by
  obtain ⟨r, _, rfl⟩ := mem_calculate_priority_scores.mp h
  exact priority_rank_cases _

/-- Witness for C3: a segment scoring exactly `0.8` is ranked `最優先` and
a segment scoring `0.79999` is ranked `高優先`. -/
theorem rank_thresholds_witness :
    (score_info (max_evc [boundarySegment08]) (max_market_size [boundarySegment08])
        boundarySegment08).priority_score = 0.8 ∧
    (score_info (max_evc [boundarySegment08]) (max_market_size [boundarySegment08])
        boundarySegment08).priority_rank = "最優先" ∧
    (score_info (max_evc [boundarySegment079999])
        (max_market_size [boundarySegment079999])
        boundarySegment079999).priority_score = 0.79999 ∧
    (score_info (max_evc [boundarySegment079999])
        (max_market_size [boundarySegment079999])
        boundarySegment079999).priority_rank = "高優先" := by
  have h8 : (score_info (max_evc [boundarySegment08])
      (max_market_size [boundarySegment08]) boundarySegment08)
        ∈ calculate_priority_scores [boundarySegment08] :=
    mem_calculate_priority_scores.mpr ⟨_, by simp, rfl⟩
  have h79 : (score_info (max_evc [boundarySegment079999])
      (max_market_size [boundarySegment079999]) boundarySegment079999)
        ∈ calculate_priority_scores [boundarySegment079999] :=
    mem_calculate_priority_scores.mpr ⟨_, by simp, rfl⟩
  have hs8 : (score_info (max_evc [boundarySegment08])
      (max_market_size [boundarySegment08]) boundarySegment08).priority_score
        = 0.8 := by
    simp [score_info, boundarySegment08, max_evc, max_market_size, batch_max,
      dictGetD, priority_weights, List.lookup]
    norm_num
  have hs79 : (score_info (max_evc [boundarySegment079999])
      (max_market_size [boundarySegment079999])
      boundarySegment079999).priority_score = 0.79999 := by
    simp [score_info, boundarySegment079999, max_evc, max_market_size, batch_max,
      dictGetD, priority_weights, List.lookup]
    norm_num
  refine ⟨hs8, ?_, hs79, ?_⟩
  · exact (rank_thresholds _ _ h8).1.mpr (by rw [hs8])
  · exact (rank_thresholds _ _ h79).2.1.mpr
      ⟨by rw [hs79]; norm_num, by rw [hs79]; norm_num⟩

theorem le_max_evc {rs : List IntegratedResult} {r : IntegratedResult}
    (hr : r ∈ rs) : r.evc_value ≤ max_evc rs :=
  le_batch_max hr

theorem le_max_market_size {rs : List IntegratedResult} {r : IntegratedResult}
    (hr : r ∈ rs) : r.market_size ≤ max_market_size rs :=
  le_batch_max hr

/-- Counterexample to claim C4 as stated: a single-segment batch — whose
segment trivially attains every batch maximum — scores
`0.4·1 + 0.2·1 + 0.3·0.5 + 0.1·1 = 0.85 ≠ 1.0` (its acquisition probability
`0.5` is the batch maximum but enters the score unnormalized); and with a
negative EVC value in a positive-maximum batch the score `-0.2` falls
outside `[0, 1]`. -/
theorem score_bound_counterexample :
    soleMaxSegment.evc_value = max_evc [soleMaxSegment] ∧
    soleMaxSegment.market_size = max_market_size [soleMaxSegment] ∧
    (calculate_priority_scores [soleMaxSegment]).map PriorityScoreInfo.priority_score
        = [0.85] ∧
    (0.85 : ℚ) ≠ 1 ∧
    (-0.2 : ℚ) ∈ (calculate_priority_scores
        [negInPositiveBatchA, negInPositiveBatchB]).map
          PriorityScoreInfo.priority_score ∧
    ¬(0 ≤ (-0.2 : ℚ)) := by
  refine ⟨rfl, rfl, ?_, by norm_num, ?_, by norm_num⟩
  · simp [calculate_priority_scores, soleMaxSegment, score_info, max_evc,
      max_market_size, max_potential, batch_max, dictGetD, priority_weights,
      sortByScoreDesc, sortStable, insertSorted, priority_rank, List.lookup]
    norm_num
  · simp [calculate_priority_scores, negInPositiveBatchA, negInPositiveBatchB,
      score_info, max_evc, max_market_size, max_potential, batch_max, dictGetD,
      priority_weights, sortByScoreDesc, sortStable, insertSorted, priority_rank,
      List.lookup]
    norm_num

/-- Claim C4 as amended: when every segment of the batch has non-negative
`evc_value`, `market_size` and growth rate and an acquisition probability in
`[0, 1]`, every priority score lies in `[0, 1]`; and a segment whose
(positive) `evc_value` and `market_size` equal the batch maxima, whose
acquisition probability is `1`, and whose growth rate is at least `0.1`
scores exactly `1.0`. -/
theorem score_bounds (rs : List IntegratedResult)
    (hvalid : ∀ r ∈ rs, 0 ≤ r.evc_value ∧ 0 ≤ r.market_size ∧
      0 ≤ r.acquisition_probability ∧ r.acquisition_probability ≤ 1 ∧
      0 ≤ growth_rate_of r) :
    (∀ info ∈ calculate_priority_scores rs,
      0 ≤ info.priority_score ∧ info.priority_score ≤ 1) ∧
    (∀ r ∈ rs, 0 < r.evc_value → r.evc_value = max_evc rs →
      0 < r.market_size → r.market_size = max_market_size rs →
      r.acquisition_probability = 1 → 0.1 ≤ growth_rate_of r →
      (score_info (max_evc rs) (max_market_size rs) r).priority_score = 1) := by
  constructor
  · intro info hinfo
    obtain ⟨r, hr, rfl⟩ := mem_calculate_priority_scores.mp hinfo
    obtain ⟨he, hm, ha0, ha1, hg⟩ := hvalid r hr
    have hne : 0 ≤ (if max_evc rs > 0 then r.evc_value / max_evc rs else 0) ∧
        (if max_evc rs > 0 then r.evc_value / max_evc rs else 0) ≤ 1 := by
      split_ifs with h
      · exact ⟨div_nonneg he h.le, (div_le_one h).mpr (le_max_evc hr)⟩
      · norm_num
    have hnm : 0 ≤ (if max_market_size rs > 0 then
          r.market_size / max_market_size rs else 0) ∧
        (if max_market_size rs > 0 then
          r.market_size / max_market_size rs else 0) ≤ 1 := by
      split_ifs with h
      · exact ⟨div_nonneg hm h.le, (div_le_one h).mpr (le_max_market_size hr)⟩
      · norm_num
    have hng : 0 ≤ min (growth_rate_of r / 0.1) 1 ∧
        min (growth_rate_of r / 0.1) 1 ≤ 1 :=
      ⟨le_min (div_nonneg hg (by norm_num)) (by norm_num), min_le_right _ _⟩
    have key : ∀ x y z w : ℚ, 0 ≤ x → x ≤ 1 → 0 ≤ y → y ≤ 1 → 0 ≤ z → z ≤ 1 →
        0 ≤ w → w ≤ 1 →
        0 ≤ priority_weights.evc_value * x + priority_weights.market_size * y +
            priority_weights.acquisition_probability * z +
            priority_weights.growth_potential * w ∧
        priority_weights.evc_value * x + priority_weights.market_size * y +
            priority_weights.acquisition_probability * z +
            priority_weights.growth_potential * w ≤ 1 := by
      intro x y z w hx0 hx1 hy0 hy1 hz0 hz1 hw0 hw1
      simp only [priority_weights]
      constructor <;> linarith
    exact key _ _ _ _ hne.1 hne.2 hnm.1 hnm.2 ha0 ha1 hng.1 hng.2
  · intro r hr h1 h2 h3 h4 h5 h6
    have hrw : (score_info (max_evc rs) (max_market_size rs) r).priority_score =
        priority_weights.evc_value *
          (if max_evc rs > 0 then r.evc_value / max_evc rs else 0) +
        priority_weights.market_size *
          (if max_market_size rs > 0 then r.market_size / max_market_size rs else 0) +
        priority_weights.acquisition_probability * r.acquisition_probability +
        priority_weights.growth_potential * min (growth_rate_of r / 0.1) 1 := rfl
    have hgrow : min (growth_rate_of r / 0.1) 1 = 1 :=
      min_eq_right ((one_le_div (by norm_num : (0:ℚ) < 0.1)).mpr h6)
    rw [hrw, ← h2, ← h4, if_pos h1, if_pos h3, div_self (ne_of_gt h1),
      div_self (ne_of_gt h3), h5, hgrow]
    norm_num [priority_weights]

/-- Witness for the amended C4: a concrete two-segment batch whose scores
are all in `[0, 1]` and whose dominating segment scores exactly `1.0`. -/
theorem score_bounds_witness :
    (∀ info ∈ calculate_priority_scores mixedBatch,
      0 ≤ info.priority_score ∧ info.priority_score ≤ 1) ∧
    (score_info (max_evc mixedBatch) (max_market_size mixedBatch)
        fullScoreSegment).priority_score = 1 := by
  have hvalid : ∀ r ∈ mixedBatch, 0 ≤ r.evc_value ∧ 0 ≤ r.market_size ∧
      0 ≤ r.acquisition_probability ∧ r.acquisition_probability ≤ 1 ∧
      0 ≤ growth_rate_of r := by
    intro r hr
    simp [mixedBatch] at hr
    rcases hr with rfl | rfl <;>
      norm_num [fullScoreSegment, growth_rate_of, dictGetD, List.lookup]
  have h := score_bounds mixedBatch hvalid
  refine ⟨h.1, h.2 fullScoreSegment (by simp [mixedBatch]) ?_ ?_ ?_ ?_ ?_ ?_⟩
  · norm_num [fullScoreSegment]
  · simp [fullScoreSegment, max_evc, batch_max, mixedBatch]
  · norm_num [fullScoreSegment]
  · simp [fullScoreSegment, max_market_size, batch_max, mixedBatch]
  · norm_num [fullScoreSegment]
  · norm_num [fullScoreSegment, growth_rate_of, dictGetD, List.lookup]

/-- Claim C5: for every segment id `"s"+digit`, the derived flags are
`is_enterprise = (suffix ≤ 2)` and `is_high_value = (suffix odd)`, and the
customized component weights are the base weights `1.0/1.2/1.0/0.9`
(R/Re/Co/I) times `1.0` plus the factor: `Re` `+0.2` if high-value else
`-0.2`; `Co` `+0.2` if not high-value else `-0.1`; `I` `+0.2` if not
enterprise else `-0.2`; `R` factor always `0`.  Consequently `s1`/`s3`
share the `Re` adjustment `1.0 + 0.2` and `s2`/`s4` share `1.0 + -0.2`:
enterprise-ness does not affect the `Re` factor. -/
theorem customize_weights_policy :
    (∀ d : Fin 10,
      segment_flags ("s" ++ toString d.val) =
        (decide (d.val ≤ 2), d.val % 2 == 1) ∧
      customize_formula_weights ("s" ++ toString d.val) no_base_components =
        { R := 1.0 * 1.0,
          Re := 1.2 * (1.0 + (if d.val % 2 == 1 then 0.2 else -0.2)),
          Co := 1.0 * (1.0 + (if !(d.val % 2 == 1) then 0.2 else -0.1)),
          I := 0.9 * (1.0 + (if !(decide (d.val ≤ 2)) then 0.2 else -0.2)) }) ∧
    (adjustments_for "s1").Re = 1.0 + 0.2 ∧
    (adjustments_for "s3").Re = 1.0 + 0.2 ∧
    (adjustments_for "s2").Re = 1.0 + -0.2 ∧
    (adjustments_for "s4").Re = 1.0 + -0.2 ∧
    (adjustments_for "s1").Re = (adjustments_for "s3").Re ∧
    (adjustments_for "s2").Re = (adjustments_for "s4").Re := by
  refine ⟨?_, rfl, rfl, rfl, rfl, rfl, rfl⟩
  intro d
  fin_cases d <;> exact ⟨by decide, rfl⟩

/-- Claim C7: `extract_parameter_from_characteristics` returns the value
stored under the parameter name when present, and otherwise exactly the
default keyed by `(is_enterprise, is_high_value)` from the §4.1 table, with
`reference_price 15000` and `implementation_years 3` for all four
combinations. -/
theorem parameter_defaults :
    (∀ (ch : List (String × ℚ)) (name : String) (ent high : Bool)
        (d : Option ℚ) (v : ℚ), ch.lookup name = some v →
        extract_parameter_from_characteristics ch name ent high d = some v) ∧
    (∀ (ch : List (String × ℚ)) (ent high : Bool) (d : Option ℚ),
        ch.lookup "annual_revenue" = none →
        extract_parameter_from_characteristics ch "annual_revenue" ent high d =
          some (if ent then (if high then 1000000000 else 800000000)
                else (if high then 200000000 else 50000000))) ∧
    (∀ (ch : List (String × ℚ)) (ent high : Bool) (d : Option ℚ),
        ch.lookup "annual_cost" = none →
        extract_parameter_from_characteristics ch "annual_cost" ent high d =
          some (if ent then (if high then 500000000 else 400000000)
                else (if high then 100000000 else 25000000))) ∧
    (∀ (ch : List (String × ℚ)) (ent high : Bool) (d : Option ℚ),
        ch.lookup "revenue_increase_rate" = none →
        extract_parameter_from_characteristics ch "revenue_increase_rate" ent high d =
          some (if high then (if ent then 0.05 else 0.08)
                else (if ent then 0.03 else 0.02))) ∧
    (∀ (ch : List (String × ℚ)) (ent high : Bool) (d : Option ℚ),
        ch.lookup "cost_reduction_rate" = none →
        extract_parameter_from_characteristics ch "cost_reduction_rate" ent high d =
          some (if high then (if ent then 0.15 else 0.12)
                else (if ent then 0.20 else 0.10))) ∧
    (∀ (ch : List (String × ℚ)) (ent high : Bool) (d : Option ℚ),
        ch.lookup "initial_cost" = none →
        extract_parameter_from_characteristics ch "initial_cost" ent high d =
          some (if ent then (if high then 500000 else 400000)
                else (if high then 200000 else 100000))) ∧
    (∀ (ch : List (String × ℚ)) (ent high : Bool) (d : Option ℚ),
        ch.lookup "operation_cost" = none →
        extract_parameter_from_characteristics ch "operation_cost" ent high d =
          some (if ent then (if high then 10000 else 8000)
                else (if high then 5000 else 3000))) ∧
    (∀ (ch : List (String × ℚ)) (ent high : Bool) (d : Option ℚ),
        ch.lookup "reference_price" = none →
        extract_parameter_from_characteristics ch "reference_price" ent high d =
          some 15000) ∧
    (∀ (ch : List (String × ℚ)) (ent high : Bool) (d : Option ℚ),
        ch.lookup "implementation_years" = none →
        extract_parameter_from_characteristics ch "implementation_years" ent high d =
          some 3) := by
  refine ⟨?_, ?_, ?_, ?_, ?_, ?_, ?_, ?_, ?_⟩
  · intro ch name ent high d v hv
    cases ch with
    | nil => simp [List.lookup] at hv
    | cons p ps => simp [extract_parameter_from_characteristics, hv]
  all_goals
    intro ch ent high d h
    cases ch with
    | nil => simp [extract_parameter_from_characteristics]
    | cons p ps => simp [extract_parameter_from_characteristics, h]

/-- Witness for C7: a stored value wins over the table; an absent key falls
back to the table default. -/
theorem parameter_defaults_witness :
    ([("annual_revenue", (42 : ℚ))].lookup "annual_revenue" = some 42) ∧
    extract_parameter_from_characteristics [("annual_revenue", 42)]
        "annual_revenue" true true none = some 42 ∧
    (([] : List (String × ℚ)).lookup "reference_price" = none) ∧
    extract_parameter_from_characteristics [] "reference_price" false true none
        = some 15000 := by
  have h1 : [("annual_revenue", (42 : ℚ))].lookup "annual_revenue" = some 42 := by
    simp [List.lookup]
  have h2 : (([] : List (String × ℚ)).lookup "reference_price") = none := rfl
  exact ⟨h1, parameter_defaults.1 _ _ _ _ _ _ h1, h2,
    parameter_defaults.2.2.2.2.2.2.2.1 _ _ _ _ h2⟩

/-- Claim C8: every successful result of `calculate_segment_potential`
satisfies `potential_value.X = companies.X · acquisition_rate.X · evc_value`
independently for each `X ∈ {min, expected, max}` — the literal element-wise
product of the estimate triples (lines 195–197), not a joint optimization. -/
theorem potential_elementwise (segment_id : String) (si : Option Unit)
    (er : Option ParsedEvc) (ce ar : EstimateTriple)
    (res : MarketPotentialResult)
    (h : calculate_segment_potential segment_id si er ce ar = .ok res) :
    res.potential_value.min =
        res.companies.min * res.acquisition_rate.min * res.evc_value ∧
    res.potential_value.expected =
        res.companies.expected * res.acquisition_rate.expected * res.evc_value ∧
    res.potential_value.max =
        res.companies.max * res.acquisition_rate.max * res.evc_value := by
  cases si with
  | none => simp [calculate_segment_potential] at h
  | some u =>
    cases er with
    | none => simp [calculate_segment_potential] at h
    | some ed =>
      cases ed with
      | nonObj => simp [calculate_segment_potential] at h
      | obj fields =>
        cases hlv : fields.lookup "evc_value" with
        | none => simp [calculate_segment_potential, hlv] at h
        | some v =>
          by_cases hv : v = 0
          · simp [calculate_segment_potential, hlv, hv] at h
          · simp only [calculate_segment_potential, hlv, if_neg hv] at h
            injection h with h
            subst h
            exact ⟨rfl, rfl, rfl⟩

/-- Witness for C8: the element-wise product on the fallback estimates and
a concrete EVC value. -/
theorem potential_elementwise_witness :
    calculate_segment_potential "s1" (some ()) (some evcObjEx)
        companiesFallback acquisitionFallback = .ok marketPotentialResultEx ∧
    marketPotentialResultEx.potential_value.min =
      marketPotentialResultEx.companies.min *
        marketPotentialResultEx.acquisition_rate.min *
        marketPotentialResultEx.evc_value := by
  have hcalc : calculate_segment_potential "s1" (some ()) (some evcObjEx)
      companiesFallback acquisitionFallback = .ok marketPotentialResultEx := by
    simp [calculate_segment_potential, evcObjEx, companiesFallback,
      acquisitionFallback, marketPotentialResultEx, List.lookup]
    norm_num
  exact ⟨hcalc, (potential_elementwise _ _ _ _ _ _ hcalc).1⟩

/-- Counterexample to claim C9 as stated: an `evc_result` that parses as
JSON but is not an object (e.g. the string `"[1, 2]"`, a JSON array) has no
`evc_value`, so the claim requires the explicit `{error, message}` result —
but line 179 (`evc_data.get`, outside any `try`) raises `AttributeError`
instead. -/
theorem potential_error_counterexample :
    calculate_segment_potential "s1" (some ()) (some .nonObj)
        companiesFallback acquisitionFallback = .raised "AttributeError" ∧
    (calculate_segment_potential "s1" (some ()) (some .nonObj)
        companiesFallback acquisitionFallback).hasErrorKey = false :=
  ⟨rfl, rfl⟩

theorem calc_potential_obj_missing {fields : List (String × ℚ)}
    (h : fields.lookup "evc_value" = none) (segment_id : String) (u : Unit)
    (ce ar : EstimateTriple) :
    calculate_segment_potential segment_id (some u) (some (.obj fields)) ce ar =
      .errorResult "EVC値が見つかりません" "有効なEVC計算結果が必要です" := by
  simp only [calculate_segment_potential, h]

theorem calc_potential_obj_zero {fields : List (String × ℚ)}
    (h : fields.lookup "evc_value" = some 0) (segment_id : String) (u : Unit)
    (ce ar : EstimateTriple) :
    calculate_segment_potential segment_id (some u) (some (.obj fields)) ce ar =
      .errorResult "EVC値が見つかりません" "有効なEVC計算結果が必要です" := by
  simp only [calculate_segment_potential, h, if_pos]

theorem calc_potential_obj_value {fields : List (String × ℚ)} {v : ℚ}
    (h : fields.lookup "evc_value" = some v) (hv : v ≠ 0) (segment_id : String)
    (u : Unit) (ce ar : EstimateTriple) :
    calculate_segment_potential segment_id (some u) (some (.obj fields)) ce ar =
      .ok { segment_id := segment_id, companies := ce, acquisition_rate := ar,
            evc_value := v,
            potential_value :=
              { min := ce.min * ar.min * v, expected := ce.expected * ar.expected * v,
                max := ce.max * ar.max * v } } := by
  simp only [calculate_segment_potential, h, if_neg hv]

/-- Claim C9 as amended: `calculate_segment_potential` returns the explicit
`{error, message}` value iff an input fails to parse as JSON or the parsed
EVC result is a JSON *object* whose `evc_value` is absent or zero; when the
EVC result parses to a non-object JSON value the function instead raises
`AttributeError`; for all remaining inputs it returns a result carrying no
`error` key. -/
theorem potential_error_characterization (segment_id : String)
    (si : Option Unit) (er : Option ParsedEvc) (ce ar : EstimateTriple) :
    ((calculate_segment_potential segment_id si er ce ar).hasErrorKey = true ↔
      si = none ∨ er = none ∨
        ∃ fields, er = some (.obj fields) ∧ evc_value_falsy fields) ∧
    (calculate_segment_potential segment_id si er ce ar = .raised "AttributeError" ↔
      si = some () ∧ er = some .nonObj) ∧
    ((∃ res, calculate_segment_potential segment_id si er ce ar = .ok res) ↔
      si = some () ∧ ∃ fields, er = some (.obj fields) ∧ evc_value_truthy fields) := by
  cases si with
  | none =>
    simp [calculate_segment_potential, PotentialOutcome.hasErrorKey]
  | some u =>
    cases er with
    | none =>
      simp [calculate_segment_potential, PotentialOutcome.hasErrorKey]
    | some ed =>
      cases ed with
      | nonObj =>
        simp [calculate_segment_potential, PotentialOutcome.hasErrorKey,
          evc_value_falsy, evc_value_truthy]
      | obj fields =>
        cases hlv : fields.lookup "evc_value" with
        | none =>
          rw [calc_potential_obj_missing hlv]
          refine ⟨⟨fun _ => Or.inr (Or.inr ⟨fields, rfl, Or.inl hlv⟩), fun _ => rfl⟩,
            ⟨fun h => PotentialOutcome.noConfusion h, fun h => by simp at h⟩,
            ⟨fun ⟨res, hres⟩ => PotentialOutcome.noConfusion hres, ?_⟩⟩
          rintro ⟨h1, fields2, h2, w, h3, h4⟩
          rw [show fields = fields2 by simpa using h2] at hlv
          rw [h3] at hlv
          cases hlv
        | some v =>
          by_cases hv : v = 0
          · subst hv
            rw [calc_potential_obj_zero hlv]
            refine ⟨⟨fun _ => Or.inr (Or.inr ⟨fields, rfl, Or.inr hlv⟩), fun _ => rfl⟩,
              ⟨fun h => PotentialOutcome.noConfusion h, fun h => by simp at h⟩,
              ⟨fun ⟨res, hres⟩ => PotentialOutcome.noConfusion hres, ?_⟩⟩
            rintro ⟨h1, fields2, h2, w, h3, h4⟩
            rw [show fields = fields2 by simpa using h2] at hlv
            rw [h3] at hlv
            exact ((h4 (Option.some.inj hlv)).elim : _)
          · rw [calc_potential_obj_value hlv hv]
            refine ⟨⟨fun h => Bool.noConfusion h, ?_⟩,
              ⟨fun h => PotentialOutcome.noConfusion h, fun h => by simp at h⟩,
              ⟨fun _ => ⟨rfl, fields, rfl, v, hlv, hv⟩, fun _ => ⟨_, rfl⟩⟩⟩
            rintro (h | h | ⟨fields2, h2, hfalsy⟩)
            · cases h
            · cases h
            · rw [show fields = fields2 by simpa using h2] at hlv
              rcases hfalsy with h3 | h3 <;> rw [h3] at hlv
              · cases hlv
              · exact absurd (Option.some.inj hlv).symm hv

/-- A batch-maxima comprehension that returns normally visited only
dictionary elements (`.get` raises `AttributeError` on anything else). -/
theorem mapGetKey_ok_all_dicts {key : String} {xs vals : List PVal}
    (h : mapGetKey key xs = .ok vals) : ∀ x ∈ xs, x.isDict = true := by
  induction xs generalizing vals with
  | nil => intro x hx; cases hx
  | cons r rs ih =>
    unfold mapGetKey at h
    cases r with
    | dict entries =>
      simp only [PVal.get] at h
      cases hmk : mapGetKey key rs with
      | error e => rw [hmk] at h; cases h
      | ok vs =>
        rw [hmk] at h
        intro x hx
        rcases List.mem_cons.mp hx with rfl | hx2
        · rfl
        · exact ih hmk x hx2
    | null => simp [PVal.get] at h
    | num q => simp [PVal.get] at h
    | str s => simp [PVal.get] at h
    | list ys => simp [PVal.get] at h

/-- Counterexample to claim C10 as stated: the empty string — an input
whose elements are (vacuously) all strings, and not a list of
dictionaries — is falsy, so the batch maxima default to `1`, the loop
iterates zero times, and `calculate_priority_scores` returns normally
instead of raising `AttributeError`; in particular the function does not
return normally *only* on lists of dictionaries. -/
theorem raw_iteration_counterexample :
    pyCalculatePriorityScores (.str "") = .ok [] ∧
    (PVal.str "").isListOfDicts = false :=
  ⟨rfl, rfl⟩

/-- Claim C10 as amended: every *non-empty* input whose elements are
strings — a non-empty `List[str]` or a non-empty bare string — makes
`calculate_priority_scores` raise `AttributeError` at the batch maxima
(lines 204–206), which iterate over the raw argument rather than the parsed
`processed_integrated_results`; a truthy input returns normally only when it
is a list of dictionaries; and the empty string or empty list (falsy, loop
never entered) return normally. -/
theorem raw_iteration_attribute_error :
    (∀ s : String, s ≠ "" →
      pyCalculatePriorityScores (.str s) = .error .attributeError) ∧
    (∀ xs : List String, xs ≠ [] →
      pyCalculatePriorityScores (.list (xs.map PVal.str)) =
        .error .attributeError) ∧
    (∀ v : PVal, v.truthy = true → v.isListOfDicts = false →
      isOkB (pyCalculatePriorityScores v) = false) ∧
    pyCalculatePriorityScores (.str "") = .ok [] ∧
    pyCalculatePriorityScores (.list []) = .ok [] := by
  have hstr : ∀ s : String, s ≠ "" →
      pyCalculatePriorityScores (.str s) = .error .attributeError := by
    intro s hs
    obtain ⟨l⟩ := s
    cases l with
    | nil => exact absurd rfl hs
    | cons c cs => rfl
  have hlist : ∀ xs : List String, xs ≠ [] →
      pyCalculatePriorityScores (.list (xs.map PVal.str)) =
        .error .attributeError := by
    intro xs hxs
    cases xs with
    | nil => exact absurd rfl hxs
    | cons x rest => rfl
  refine ⟨hstr, hlist, ?_, rfl, rfl⟩
  intro v htr hld
  cases v with
  | null => simp [PVal.truthy] at htr
  | num q =>
    simp [pyCalculatePriorityScores, pyBatchMax, htr, PVal.iter, isOkB]
  | str s =>
    have hs : s ≠ "" := by
      intro h
      subst h
      simp [PVal.truthy] at htr
    rw [hstr s hs]
    rfl
  | dict entries =>
    cases entries with
    | nil => simp [PVal.truthy] at htr
    | cons e es => rfl
  | list xs =>
    cases hmk : mapGetKey "evc_value" xs with
    | error e =>
      simp [pyCalculatePriorityScores, pyBatchMax, htr, PVal.iter, hmk, isOkB]
    | ok vals =>
      exfalso
      have hall := mapGetKey_ok_all_dicts hmk
      simp only [PVal.isListOfDicts] at hld
      rw [List.all_eq_false] at hld
      obtain ⟨x, hx, hnd⟩ := hld
      rw [hall x hx] at hnd
      exact hnd rfl

/-- Witness for the amended C10: a non-empty string, a non-empty string
list and a truthy non-list input. -/
theorem raw_iteration_witness :
    pyCalculatePriorityScores (.str "abc") = .error .attributeError ∧
    pyCalculatePriorityScores (.list [.str "x", .str "y"]) =
      .error .attributeError ∧
    isOkB (pyCalculatePriorityScores (.dict [("a", .num 1)])) = false := by
  refine ⟨raw_iteration_attribute_error.1 "abc" (by decide), ?_, ?_⟩
  · have h := raw_iteration_attribute_error.2.1 ["x", "y"] (by simp)
    simpa using h
  · exact raw_iteration_attribute_error.2.2.1 (.dict [("a", .num 1)]) rfl rfl

end NexaSales
